import Mathlib

/-!
Verification of the Traffic-Light-Detector core: the region-based signal-color
classifier `analyzeTrafficLightColor` and the perspective-based pole-height
estimator `estimatePoleHeight`, shallowly embedded from the TypeScript source
(`src/components/PoleHeightDetector.tsx` and the detection page).

Modelling conventions:
* JavaScript numbers are modelled as rationals (`ℚ`); every constant in the
  source (0.7, 0.1, 4.5, ...) is an exact decimal, so all comparisons in the
  source are exact at the inputs of interest.
* An `ImageData` buffer is a flat RGBA byte stream read with stride 4; we model
  it as a list of `Rgba` samples.  The classification loop reads only the
  first three bytes of each sample, which we make explicit by projecting to
  `Pixel := ℕ × ℕ × ℕ` at the entry point.
* The source's early `return`s inside the per-bucket blocks are modelled with
  `Option String` values chained in source order.
* The unguarded divisions `lightPosition / imageHeight` and
  `lightHeight / imageHeight` in `estimatePoleHeight` follow IEEE semantics in
  JavaScript (x/0 is ±Infinity or NaN); we model their results with `JsNum`
  so that the imageHeight = 0 behaviour of the source is captured exactly.
-/

namespace TrafficLight

/-- An RGBA sample of an `ImageData` buffer: four consecutive bytes
`data[i], data[i+1], data[i+2], data[i+3]`. -/
structure Rgba where
  r : ℕ
  g : ℕ
  b : ℕ
  a : ℕ
deriving DecidableEq

/-- The part of a sample the classifier reads: the loop in
`analyzeTrafficLightColor` uses `data[i]`, `data[i+1]`, `data[i+2]` and skips
the alpha byte `data[i+3]`. -/
abbrev Pixel : Type := ℕ × ℕ × ℕ

/-- Projection of a sample to the three channels the classifier reads. -/
def Rgba.rgb (p : Rgba) : Pixel := (p.r, p.g, p.b)

/-- Source: `const brightness = (r + g + b) / 3;`. -/
def brightness (p : Pixel) : ℚ := ((p.1 : ℚ) + p.2.1 + p.2.2) / 3

/-- Pixels of the bright bucket: `if (brightness > 60)`. -/
def brightBucket (pix : List Pixel) : List Pixel :=
  pix.filter fun p => decide (60 < brightness p)

/-- Pixels of the dim bucket: `else if (brightness > 25)` (so the bright test
has already failed). -/
def dimBucket (pix : List Pixel) : List Pixel :=
  pix.filter fun p => decide (¬ 60 < brightness p ∧ 25 < brightness p)

/-- Pixels of the very-dim bucket: `else if (brightness > 10)` (bright and dim
tests already failed). -/
def veryDimBucket (pix : List Pixel) : List Pixel :=
  pix.filter fun p => decide (¬ 60 < brightness p ∧ ¬ 25 < brightness p ∧ 10 < brightness p)

/-- Accumulated red channel over a pixel list (`redSum`-style accumulators of
the source loop, one bucket at a time). -/
def sumR (pix : List Pixel) : ℕ := (pix.map fun p => p.1).sum

/-- Accumulated green channel over a pixel list. -/
def sumG (pix : List Pixel) : ℕ := (pix.map fun p => p.2.1).sum

/-- Accumulated blue channel over a pixel list. -/
def sumB (pix : List Pixel) : ℕ := (pix.map fun p => p.2.2).sum

/-- Source counter `brightPixels`. -/
def brightPixels (pix : List Pixel) : ℕ := (brightBucket pix).length

/-- Source counter `dimPixels`. -/
def dimPixels (pix : List Pixel) : ℕ := (dimBucket pix).length

/-- Source counter `veryDimPixels`. -/
def veryDimPixels (pix : List Pixel) : ℕ := (veryDimBucket pix).length

/-- Source: `const avgRed = redSum / brightPixels;`. -/
def avgRed (pix : List Pixel) : ℚ := (sumR (brightBucket pix) : ℚ) / (brightPixels pix : ℚ)

/-- Source: `const avgGreen = greenSum / brightPixels;`. -/
def avgGreen (pix : List Pixel) : ℚ := (sumG (brightBucket pix) : ℚ) / (brightPixels pix : ℚ)

/-- Source: `const avgBlue = blueSum / brightPixels;`. -/
def avgBlue (pix : List Pixel) : ℚ := (sumB (brightBucket pix) : ℚ) / (brightPixels pix : ℚ)

/-- Source: `const dimAvgRed = dimRedSum / dimPixels;`. -/
def dimAvgRed (pix : List Pixel) : ℚ := (sumR (dimBucket pix) : ℚ) / (dimPixels pix : ℚ)

/-- Source: `const dimAvgGreen = dimGreenSum / dimPixels;`. -/
def dimAvgGreen (pix : List Pixel) : ℚ := (sumG (dimBucket pix) : ℚ) / (dimPixels pix : ℚ)

/-- Source: `const dimAvgBlue = dimBlueSum / dimPixels;`. -/
def dimAvgBlue (pix : List Pixel) : ℚ := (sumB (dimBucket pix) : ℚ) / (dimPixels pix : ℚ)

/-- Source: `const veryDimAvgRed = veryDimRedSum / veryDimPixels;`. -/
def veryDimAvgRed (pix : List Pixel) : ℚ := (sumR (veryDimBucket pix) : ℚ) / (veryDimPixels pix : ℚ)

/-- Source: `const veryDimAvgGreen = veryDimGreenSum / veryDimPixels;`. -/
def veryDimAvgGreen (pix : List Pixel) : ℚ := (sumG (veryDimBucket pix) : ℚ) / (veryDimPixels pix : ℚ)

/-- Source: `const veryDimAvgBlue = veryDimBlueSum / veryDimPixels;`. -/
def veryDimAvgBlue (pix : List Pixel) : ℚ := (sumB (veryDimBucket pix) : ℚ) / (veryDimPixels pix : ℚ)

/-- The `if (brightPixels > 0) { ... }` block: tests Green, Red, Yellow in
source order, returning early on the first match, `none` when the block falls
through. -/
def brightCheck (pix : List Pixel) : Option String :=
  if 0 < brightPixels pix then
    if avgGreen pix > avgRed pix + 8 ∧ avgGreen pix > avgBlue pix + 8 then some "Green"
    else if avgRed pix > avgGreen pix + 20 ∧ avgRed pix > avgBlue pix + 20 then some "Red"
    else if avgRed pix > 130 ∧ avgGreen pix > 100 ∧ avgBlue pix < 100 then some "Yellow"
    else none
  else none

/-- The `if (dimPixels > 0) { ... }` block. -/
def dimCheck (pix : List Pixel) : Option String :=
  if 0 < dimPixels pix then
    if dimAvgGreen pix > dimAvgRed pix + 3 ∧ dimAvgGreen pix > dimAvgBlue pix + 3 then some "Green"
    else if dimAvgRed pix > dimAvgGreen pix + 8 ∧ dimAvgRed pix > dimAvgBlue pix + 8 then some "Red"
    else if dimAvgRed pix > 60 ∧ dimAvgGreen pix > 45 ∧ dimAvgBlue pix < 60 then some "Yellow"
    else none
  else none

/-- The `if (veryDimPixels > 0) { ... }` block. -/
def veryDimCheck (pix : List Pixel) : Option String :=
  if 0 < veryDimPixels pix then
    if veryDimAvgGreen pix > veryDimAvgRed pix + 1 ∧ veryDimAvgGreen pix > veryDimAvgBlue pix + 1 ∧
        veryDimAvgGreen pix > 15 then some "Green"
    else if veryDimAvgRed pix > veryDimAvgGreen pix + 3 ∧ veryDimAvgRed pix > veryDimAvgBlue pix + 3 then
      some "Red"
    else if veryDimAvgRed pix > 30 ∧ veryDimAvgGreen pix > 25 ∧ veryDimAvgBlue pix < 40 then
      some "Yellow"
    else none
  else none

/-- Source counter `totalPixels = data.length / 4`. -/
def totalPixels (pix : List Pixel) : ℕ := pix.length

/-- Source: `const avgOverallRed = overallRed / totalPixels;` — the sum ranges
over every sample, regardless of brightness. -/
def avgOverallRed (pix : List Pixel) : ℚ := (sumR pix : ℚ) / (totalPixels pix : ℚ)

/-- Source: `const avgOverallGreen = overallGreen / totalPixels;`. -/
def avgOverallGreen (pix : List Pixel) : ℚ := (sumG pix : ℚ) / (totalPixels pix : ℚ)

/-- Source: `const avgOverallBlue = overallBlue / totalPixels;`. -/
def avgOverallBlue (pix : List Pixel) : ℚ := (sumB pix : ℚ) / (totalPixels pix : ℚ)

/-- The last-resort whole-region check of the source: green when
`avgOverallGreen > avgOverallRed + 1 && avgOverallGreen > avgOverallBlue + 1
&& avgOverallGreen > 20`, otherwise `'Unknown'`.  (On an empty region the
source divides 0/0 giving NaN, whose comparisons are all false; in `ℚ` the
division yields 0 and the comparisons are likewise false, so both return
Unknown.) -/
def overallCheck (pix : List Pixel) : String :=
  if avgOverallGreen pix > avgOverallRed pix + 1 ∧ avgOverallGreen pix > avgOverallBlue pix + 1 ∧
      avgOverallGreen pix > 20 then "Green"
  else "Unknown"

/-- The body of `analyzeTrafficLightColor` after the `undefined` guard: the
three bucket blocks in source order with early return, then the whole-region
fallback. -/
def classifyPixels (pix : List Pixel) : String :=
  match brightCheck pix with
  | some c => c
  | none =>
    match dimCheck pix with
    | some c => c
    | none =>
      match veryDimCheck pix with
      | some c => c
      | none => overallCheck pix

/-- Source `analyzeTrafficLightColor(imageData: ImageData | undefined): string`:
`undefined` returns `'Unknown'`; otherwise the RGBA stream is scanned with
stride 4, reading only the r, g, b bytes of each sample. -/
def analyzeTrafficLightColor (imageData : Option (List Rgba)) : String :=
  match imageData with
  | none => "Unknown"
  | some data => classifyPixels (data.map Rgba.rgb)

/-! ### The pole-height estimator -/

/-- The value of a JavaScript floating-point division: finite, ±Infinity, or
NaN.  The estimator's two divisions are the only places a non-finite value can
arise (their other arithmetic stays finite), and each quotient is consumed
only by `<`/`>` comparisons against constants, which we model below with
IEEE semantics (every comparison with NaN is false). -/
inductive JsNum where
  | fin : ℚ → JsNum
  | posInf : JsNum
  | negInf : JsNum
  | nan : JsNum
deriving DecidableEq

/-- JavaScript division `a / b`: finite for `b ≠ 0`; for `b = 0` it is
`±Infinity` according to the sign of `a`, and `NaN` for `0 / 0`. -/
def jsDiv (a b : ℚ) : JsNum :=
  if b = 0 then
    if 0 < a then JsNum.posInf else if a < 0 then JsNum.negInf else JsNum.nan
  else JsNum.fin (a / b)

/-- The comparison `x > c` of a division result against a finite constant. -/
def JsNum.gtc : JsNum → ℚ → Bool
  | JsNum.fin q, c => decide (c < q)
  | JsNum.posInf, _ => true
  | JsNum.negInf, _ => false
  | JsNum.nan, _ => false

/-- The comparison `x < c` of a division result against a finite constant. -/
def JsNum.ltc : JsNum → ℚ → Bool
  | JsNum.fin q, c => decide (q < c)
  | JsNum.posInf, _ => false
  | JsNum.negInf, _ => true
  | JsNum.nan, _ => false

/-- JavaScript `Math.round`: nearest integer, ties toward +Infinity, which for
rationals is exactly `⌊x + 1/2⌋`. -/
def jsRound (x : ℚ) : ℤ := ⌊x + 1 / 2⌋

/-- The record returned by `estimatePoleHeight` (interface `PoleHeight` of the
source: `estimatedHeight`, `confidence`, `referenceUsed`). -/
structure PoleHeight where
  estimatedHeight : ℚ
  confidence : ℚ
  referenceUsed : String
deriving DecidableEq

/-- Source `estimatePoleHeight(x1, y1, x2, y2, imageWidth, imageHeight)`.
`posRel` is the source's `positionRatio = lightPosition / imageHeight` and
`sizeRel` its `sizeRatio = lightHeight / imageHeight`; both divisions are
unguarded in the source, so they are modelled with `jsDiv`.  The source's
mutable reassignments of `estimatedHeight`/`confidence` become the `base` and
`adj` tuples; `Math.round(estimatedHeight * 10) / 10` is the final rounding. -/
def estimatePoleHeight (x1 y1 x2 y2 imageWidth imageHeight : ℚ) : PoleHeight :=
  let lightHeight : ℚ := |y2 - y1|
  let lightPosition : ℚ := (y1 + y2) / 2
  let posRel : JsNum := jsDiv lightPosition imageHeight
  let base : ℚ × ℚ × String :=
    if posRel.gtc 0.7 then (4.5, 0.8, "Standard urban intersection")
    else if posRel.gtc 0.4 then (5.2, 0.7, "Highway or major road")
    else (6.1, 0.6, "Highway overpass")
  let sizeRel : JsNum := jsDiv lightHeight imageHeight
  let adj : ℚ × ℚ :=
    if sizeRel.gtc 0.1 then (base.1 * 0.9, min (base.2.1 + 0.1) 0.9)
    else if sizeRel.ltc 0.02 then (base.1 * 1.2, max (base.2.1 - 0.1) 0.5)
    else (base.1, base.2.1)
  { estimatedHeight := (jsRound (adj.1 * 10) : ℚ) / 10
    confidence := adj.2
    referenceUsed := base.2.2 }

/-! ### Spec-side definitions

The specification re-expresses the classifier's control flow as an ordered
tier table (spec §4.1) and the estimator's base case as first-matching ranges
of `positionRatio` (spec §4.2).  The following definitions transcribe the
spec's wording; the refinement theorems below compare them with the
source-translated functions. -/

/-- The spec's three brightness tiers, brightest first. -/
inductive Tier where
  | bright : Tier
  | dim : Tier
  | veryDim : Tier
deriving DecidableEq

/-- Spec §4.1 step 2: disjoint brightness bands — bright (>60),
dim (25–60, lower bound exclusive], very-dim (10–25]. -/
def tierBand (t : Tier) (p : Pixel) : Bool :=
  match t with
  | Tier.bright => decide (60 < brightness p)
  | Tier.dim => decide (25 < brightness p ∧ brightness p ≤ 60)
  | Tier.veryDim => decide (10 < brightness p ∧ brightness p ≤ 25)

/-- Spec §4.1 per-bucket rule table, rules evaluated Green, Red, Yellow,
first match wins, over that bucket's means. -/
def tierRules (t : Tier) (mR mG mB : ℚ) : Option String :=
  match t with
  | Tier.bright =>
    if mG > mR + 8 ∧ mG > mB + 8 then some "Green"
    else if mR > mG + 20 ∧ mR > mB + 20 then some "Red"
    else if mR > 130 ∧ mG > 100 ∧ mB < 100 then some "Yellow"
    else none
  | Tier.dim =>
    if mG > mR + 3 ∧ mG > mB + 3 then some "Green"
    else if mR > mG + 8 ∧ mR > mB + 8 then some "Red"
    else if mR > 60 ∧ mG > 45 ∧ mB < 60 then some "Yellow"
    else none
  | Tier.veryDim =>
    if mG > mR + 1 ∧ mG > mB + 1 ∧ mG > 15 then some "Green"
    else if mR > mG + 3 ∧ mR > mB + 3 then some "Red"
    else if mR > 30 ∧ mG > 25 ∧ mB < 40 then some "Yellow"
    else none

/-- Spec §4.1 step 4, one tier: a bucket produces a label only when it is
non-empty and its means match one of its rules. -/
def tierLabel (pix : List Pixel) (t : Tier) : Option String :=
  let bucket := pix.filter (tierBand t)
  if bucket.length = 0 then none
  else
    tierRules t ((sumR bucket : ℚ) / (bucket.length : ℚ))
      ((sumG bucket : ℚ) / (bucket.length : ℚ)) ((sumB bucket : ℚ) / (bucket.length : ℚ))

/-- Spec §4.1 steps 4–5: evaluate the tiers from brightest to dimmest, the
first tier producing a label wins; when all three are exhausted, apply the
whole-region last-resort green-only check. -/
def specClassify (pix : List Pixel) : String :=
  match [Tier.bright, Tier.dim, Tier.veryDim].findSome? (tierLabel pix) with
  | some c => c
  | none =>
    if avgOverallGreen pix > avgOverallRed pix + 1 ∧ avgOverallGreen pix > avgOverallBlue pix + 1 ∧
        avgOverallGreen pix > 20 then "Green"
    else "Unknown"

/-- Spec §4.2 step 2: base height, confidence and reference class from
`positionRatio`, first matching range wins (the source's reference strings
stand for the spec's NearIntersection / MajorRoad / Overpass labels). -/
def baseEstimate (r : ℚ) : ℚ × ℚ × String :=
  if r > 0.7 then (4.5, 0.8, "Standard urban intersection")
  else if r > 0.4 then (5.2, 0.7, "Highway or major road")
  else (6.1, 0.6, "Highway overpass")

/-- Spec §4.2 steps 4–5: the size-ratio adjustment of a base estimate,
followed by rounding the height to one decimal place. -/
def adjustForSize (base : ℚ × ℚ × String) (s : ℚ) : PoleHeight :=
  if s > 0.1 then
    { estimatedHeight := (jsRound (base.1 * 0.9 * 10) : ℚ) / 10
      confidence := min (base.2.1 + 0.1) 0.9
      referenceUsed := base.2.2 }
  else if s < 0.02 then
    { estimatedHeight := (jsRound (base.1 * 1.2 * 10) : ℚ) / 10
      confidence := max (base.2.1 - 0.1) 0.5
      referenceUsed := base.2.2 }
  else
    { estimatedHeight := (jsRound (base.1 * 10) : ℚ) / 10
      confidence := base.2.1
      referenceUsed := base.2.2 }

/-! ### Helper lemmas -/

/-- The red-channel sum only depends on the multiset of pixels. -/
theorem sumR_perm {a b : List Pixel} (h : a.Perm b) : sumR a = sumR b :=
  (h.map _).sum_eq

/-- The green-channel sum only depends on the multiset of pixels. -/
theorem sumG_perm {a b : List Pixel} (h : a.Perm b) : sumG a = sumG b :=
  (h.map _).sum_eq

/-- The blue-channel sum only depends on the multiset of pixels. -/
theorem sumB_perm {a b : List Pixel} (h : a.Perm b) : sumB a = sumB b :=
  (h.map _).sum_eq

/-- The classifier body is invariant under permutation of the pixel list:
every aggregate it consumes (bucket counts, bucket channel sums, whole-region
sums and the pixel count) is permutation-invariant. -/
theorem classifyPixels_perm {a b : List Pixel} (h : a.Perm b) :
    classifyPixels a = classifyPixels b := by
  have hbr : (brightBucket a).Perm (brightBucket b) := h.filter _
  have hdm : (dimBucket a).Perm (dimBucket b) := h.filter _
  have hvd : (veryDimBucket a).Perm (veryDimBucket b) := h.filter _
  have ebc : brightCheck a = brightCheck b := by
    unfold brightCheck avgRed avgGreen avgBlue brightPixels
    rw [sumR_perm hbr, sumG_perm hbr, sumB_perm hbr, hbr.length_eq]
  have edc : dimCheck a = dimCheck b := by
    unfold dimCheck dimAvgRed dimAvgGreen dimAvgBlue dimPixels
    rw [sumR_perm hdm, sumG_perm hdm, sumB_perm hdm, hdm.length_eq]
  have evc : veryDimCheck a = veryDimCheck b := by
    unfold veryDimCheck veryDimAvgRed veryDimAvgGreen veryDimAvgBlue veryDimPixels
    rw [sumR_perm hvd, sumG_perm hvd, sumB_perm hvd, hvd.length_eq]
  have eoc : overallCheck a = overallCheck b := by
    unfold overallCheck avgOverallRed avgOverallGreen avgOverallBlue totalPixels
    rw [sumR_perm h, sumG_perm h, sumB_perm h, h.length_eq]
  unfold classifyPixels
  rw [ebc, edc, evc, eoc]

/-- The spec's bright tier coincides with the source's bright block. -/
theorem tierLabel_bright (pix : List Pixel) : tierLabel pix Tier.bright = brightCheck pix := by
  have hb : pix.filter (tierBand Tier.bright) = brightBucket pix := rfl
  unfold tierLabel brightCheck tierRules avgRed avgGreen avgBlue brightPixels
  rw [hb]
  rcases Nat.eq_zero_or_pos (brightBucket pix).length with h0 | hpos
  · rw [if_pos h0, if_neg (by omega)]
  · rw [if_neg (by omega), if_pos hpos]

/-- The spec's dim tier (band 25 < brightness ≤ 60) coincides with the
source's dim block (reached only when `brightness > 60` already failed). -/
theorem tierLabel_dim (pix : List Pixel) : tierLabel pix Tier.dim = dimCheck pix := by
  have hb : pix.filter (tierBand Tier.dim) = dimBucket pix := by
    unfold dimBucket
    refine List.filter_congr fun p _ => ?_
    simp only [tierBand]
    refine decide_eq_decide.mpr ?_
    constructor
    · rintro ⟨h1, h2⟩
      exact ⟨not_lt.mpr h2, h1⟩
    · rintro ⟨h1, h2⟩
      exact ⟨h2, not_lt.mp h1⟩
  unfold tierLabel dimCheck tierRules dimAvgRed dimAvgGreen dimAvgBlue dimPixels
  rw [hb]
  rcases Nat.eq_zero_or_pos (dimBucket pix).length with h0 | hpos
  · rw [if_pos h0, if_neg (by omega)]
  · rw [if_neg (by omega), if_pos hpos]

/-- The spec's very-dim tier (band 10 < brightness ≤ 25) coincides with the
source's very-dim block. -/
theorem tierLabel_veryDim (pix : List Pixel) :
    tierLabel pix Tier.veryDim = veryDimCheck pix := by
  have hb : pix.filter (tierBand Tier.veryDim) = veryDimBucket pix := by
    unfold veryDimBucket
    refine List.filter_congr fun p _ => ?_
    simp only [tierBand]
    refine decide_eq_decide.mpr ?_
    constructor
    · rintro ⟨h1, h2⟩
      exact ⟨not_lt.mpr (h2.trans (by norm_num)), not_lt.mpr h2, h1⟩
    · rintro ⟨h1, h2, h3⟩
      exact ⟨h3, not_lt.mp h2⟩
  unfold tierLabel veryDimCheck tierRules veryDimAvgRed veryDimAvgGreen veryDimAvgBlue veryDimPixels
  rw [hb]
  rcases Nat.eq_zero_or_pos (veryDimBucket pix).length with h0 | hpos
  · rw [if_pos h0, if_neg (by omega)]
  · rw [if_neg (by omega), if_pos hpos]

/-- The source's nested early-return control flow equals the spec's ordered
tier table evaluation. -/
theorem classifyPixels_eq_spec (pix : List Pixel) : classifyPixels pix = specClassify pix := by
  unfold classifyPixels specClassify
  rw [List.findSome?_cons, tierLabel_bright]
  cases brightCheck pix with
  | some c => rfl
  | none =>
    rw [List.findSome?_cons, tierLabel_dim]
    cases dimCheck pix with
    | some c => rfl
    | none =>
      rw [List.findSome?_cons, tierLabel_veryDim]
      cases veryDimCheck pix with
      | some c => rfl
      | none =>
        show overallCheck pix = _
        unfold overallCheck
        rfl

/-! ### The claims -/

/-- C1 (counterexample): the claim says `estimate` with imageHeight = 0 fails
with an InvalidGeometry/InvalidInput error and produces no estimate.  The
source has no such guard: at the spec's own example box (480,100,520,140) with
imageHeight = 0 the division yields +Infinity, the `positionRatio > 0.7` and
`sizeRatio > 0.1` branches are taken, and a `PoleHeightEstimate` of
4.1 m / 0.9 / NearIntersection is returned to the caller. -/
theorem estimate_zero_imageHeight_cex :
    estimatePoleHeight 480 100 520 140 1000 0 =
      { estimatedHeight := 4.1, confidence := 0.9,
        referenceUsed := "Standard urban intersection" } := by
  norm_num [estimatePoleHeight, jsDiv, JsNum.gtc, JsNum.ltc, jsRound]

/-- C1 (amended): calling `estimate` with imageHeight = 0 does not fail — no
guard exists and a `PoleHeightEstimate` is always produced; for every box with
a positive vertical center and a nonzero height both unguarded divisions give
+Infinity, so the result is 4.1 m, confidence 0.9, NearIntersection
("Standard urban intersection"). -/
theorem estimate_zero_imageHeight_returns (x1 y1 x2 y2 w : ℚ)
    (hpos : 0 < y1 + y2) (hne : y1 ≠ y2) :
    estimatePoleHeight x1 y1 x2 y2 w 0 =
      { estimatedHeight := 4.1, confidence := 0.9,
        referenceUsed := "Standard urban intersection" } := by
  have h1 : 0 < (y1 + y2) / 2 := by positivity
  have h2 : 0 < |y2 - y1| := abs_pos.mpr (sub_ne_zero.mpr (Ne.symm hne))
  simp only [estimatePoleHeight, jsDiv, if_pos rfl, h1, if_true, h2, JsNum.gtc]
  norm_num [jsRound]

/-- C1 (witness): the amended theorem applied to the box (0, 100, 50, 140). -/
theorem estimate_zero_imageHeight_returns_witness :
    0 < (100 : ℚ) + 140 ∧ (100 : ℚ) ≠ 140 ∧
      estimatePoleHeight 0 100 50 140 0 0 =
        { estimatedHeight := 4.1, confidence := 0.9,
          referenceUsed := "Standard urban intersection" } :=
  ⟨by norm_num, by norm_num,
    estimate_zero_imageHeight_returns 0 100 50 140 0 (by norm_num) (by norm_num)⟩

/-- C2 (counterexample): a one-pixel region (0,30,0) has brightness exactly
10, so every pixel is at most 10 and the claim demands Unknown — but the
whole-region last-resort check (which, unlike the buckets, sums every pixel)
sees means R=0, G=30, B=0 and returns Green. -/
theorem black_region_cex :
    brightness (Rgba.rgb ⟨0, 30, 0, 255⟩) ≤ 10 ∧
      analyzeTrafficLightColor (some [⟨0, 30, 0, 255⟩]) = "Green" := by
  constructor
  · norm_num [brightness, Rgba.rgb]
  · norm_num [analyzeTrafficLightColor, classifyPixels, brightCheck, dimCheck, veryDimCheck,
      overallCheck, brightBucket, dimBucket, veryDimBucket, brightPixels, dimPixels,
      veryDimPixels, avgOverallRed, avgOverallGreen, avgOverallBlue, sumR, sumG, sumB,
      totalPixels, brightness, Rgba.rgb, List.filter]

/-- C2 (amended): in a region where every pixel has brightness at most 10 all
three brightness buckets are empty, so `classify` returns the whole-region
last-resort check — Green when the overall means satisfy
avgG > avgR + 1 ∧ avgG > avgB + 1 ∧ avgG > 20, Unknown otherwise (not
unconditionally Unknown, because the final check also sums the sub-threshold
pixels). -/
theorem black_region_falls_to_overall (l : List Rgba)
    (hb : ∀ p ∈ l, brightness p.rgb ≤ 10) :
    analyzeTrafficLightColor (some l) = overallCheck (l.map Rgba.rgb) := by
  have hb' : ∀ p ∈ l.map Rgba.rgb, brightness p ≤ 10 := by
    intro p hp
    rcases List.mem_map.mp hp with ⟨q, hq, rfl⟩
    exact hb q hq
  have hbr : brightBucket (l.map Rgba.rgb) = [] := by
    unfold brightBucket
    refine List.filter_eq_nil_iff.mpr fun p hp => ?_
    simp only [decide_eq_true_eq, not_lt]
    exact (hb' p hp).trans (by norm_num)
  have hdm : dimBucket (l.map Rgba.rgb) = [] := by
    unfold dimBucket
    refine List.filter_eq_nil_iff.mpr fun p hp => ?_
    simp only [decide_eq_true_eq, not_and, not_lt]
    intro _
    exact (hb' p hp).trans (by norm_num)
  have hvd : veryDimBucket (l.map Rgba.rgb) = [] := by
    unfold veryDimBucket
    refine List.filter_eq_nil_iff.mpr fun p hp => ?_
    simp only [decide_eq_true_eq, not_and, not_lt]
    intro _ _
    exact hb' p hp
  show classifyPixels (l.map Rgba.rgb) = overallCheck (l.map Rgba.rgb)
  unfold classifyPixels brightCheck dimCheck veryDimCheck brightPixels dimPixels veryDimPixels
  rw [hbr, hdm, hvd]
  simp

/-- C2 (witness): the amended theorem applied to the region of one pixel
(5, 20, 5), brightness 10. -/
theorem black_region_falls_to_overall_witness :
    (∀ p ∈ ([⟨5, 20, 5, 255⟩] : List Rgba), brightness p.rgb ≤ 10) ∧
      analyzeTrafficLightColor (some [⟨5, 20, 5, 255⟩]) =
        overallCheck (([⟨5, 20, 5, 255⟩] : List Rgba).map Rgba.rgb) := by
  have hb : ∀ p ∈ ([⟨5, 20, 5, 255⟩] : List Rgba), brightness p.rgb ≤ 10 := by
    intro p hp
    simp only [List.mem_singleton] at hp
    subst hp
    norm_num [brightness, Rgba.rgb]
  exact ⟨hb, black_region_falls_to_overall _ hb⟩

/-- C3 (counterexample): a one-pixel region uniformly (150,120,50) is
classified Red, not Yellow as the claim states: the bright red rule
150 > 120 + 20 ∧ 150 > 50 + 20 matches, and red is tested before yellow. -/
theorem uniform_amber_cex :
    analyzeTrafficLightColor (some [⟨150, 120, 50, 255⟩]) = "Red" := by
  norm_num [analyzeTrafficLightColor, classifyPixels, brightCheck, dimCheck, veryDimCheck,
    overallCheck, brightBucket, dimBucket, veryDimBucket, brightPixels, dimPixels,
    veryDimPixels, avgRed, avgGreen, avgBlue, avgOverallRed, avgOverallGreen, avgOverallBlue,
    sumR, sumG, sumB, totalPixels, brightness, Rgba.rgb, List.filter]

/-- C3 (amended): every non-empty region whose pixels are uniformly
R=150, G=120, B=50 is classified Red — the input does match the bright-bucket
yellow rule, but it also matches the bright red rule (150 > 120+20 and
150 > 50+20), which is evaluated first. -/
theorem uniform_amber_red (l : List Rgba) (hne : l ≠ [])
    (hu : ∀ p ∈ l, p.r = 150 ∧ p.g = 120 ∧ p.b = 50) :
    analyzeTrafficLightColor (some l) = "Red" := by
  have hu' : ∀ p ∈ l.map Rgba.rgb, p = ((150 : ℕ), (120 : ℕ), (50 : ℕ)) := by
    intro p hp
    rcases List.mem_map.mp hp with ⟨q, hq, rfl⟩
    rcases hu q hq with ⟨h1, h2, h3⟩
    simp [Rgba.rgb, h1, h2, h3]
  have hfull : brightBucket (l.map Rgba.rgb) = l.map Rgba.rgb := by
    unfold brightBucket
    refine List.filter_eq_self.mpr fun p hp => ?_
    rw [hu' p hp]
    norm_num [brightness]
  have hlen : 0 < (l.map Rgba.rgb).length := by
    simpa [List.length_pos] using hne
  have hn : ((l.length : ℚ)) ≠ 0 := by
    exact_mod_cast (List.length_pos.mpr hne).ne'
  have hsr : sumR (l.map Rgba.rgb) = 150 * (l.map Rgba.rgb).length := by
    unfold sumR
    rw [List.sum_eq_card_nsmul _ 150 fun x hx => ?_]
    · simp [List.length_map, mul_comm]
    · rcases List.mem_map.mp hx with ⟨p, hp, rfl⟩
      rw [hu' p hp]
  have hsg : sumG (l.map Rgba.rgb) = 120 * (l.map Rgba.rgb).length := by
    unfold sumG
    rw [List.sum_eq_card_nsmul _ 120 fun x hx => ?_]
    · simp [List.length_map, mul_comm]
    · rcases List.mem_map.mp hx with ⟨p, hp, rfl⟩
      rw [hu' p hp]
  have hsb : sumB (l.map Rgba.rgb) = 50 * (l.map Rgba.rgb).length := by
    unfold sumB
    rw [List.sum_eq_card_nsmul _ 50 fun x hx => ?_]
    · simp [List.length_map, mul_comm]
    · rcases List.mem_map.mp hx with ⟨p, hp, rfl⟩
      rw [hu' p hp]
  have havR : avgRed (l.map Rgba.rgb) = 150 := by
    unfold avgRed brightPixels
    rw [hfull, hsr]
    push_cast [List.length_map]
    rw [mul_div_assoc, div_self hn, mul_one]
  have havG : avgGreen (l.map Rgba.rgb) = 120 := by
    unfold avgGreen brightPixels
    rw [hfull, hsg]
    push_cast [List.length_map]
    rw [mul_div_assoc, div_self hn, mul_one]
  have havB : avgBlue (l.map Rgba.rgb) = 50 := by
    unfold avgBlue brightPixels
    rw [hfull, hsb]
    push_cast [List.length_map]
    rw [mul_div_assoc, div_self hn, mul_one]
  have hbc : brightCheck (l.map Rgba.rgb) = some "Red" := by
    unfold brightCheck brightPixels
    rw [havR, havG, havB, hfull, if_pos hlen]
    norm_num
  show classifyPixels (l.map Rgba.rgb) = "Red"
  unfold classifyPixels
  rw [hbc]

/-- C3 (witness): the amended theorem applied to a two-pixel uniform
(150,120,50) region (with differing alpha bytes). -/
theorem uniform_amber_red_witness :
    ([⟨150, 120, 50, 255⟩, ⟨150, 120, 50, 0⟩] : List Rgba) ≠ [] ∧
    (∀ p ∈ ([⟨150, 120, 50, 255⟩, ⟨150, 120, 50, 0⟩] : List Rgba),
      p.r = 150 ∧ p.g = 120 ∧ p.b = 50) ∧
    analyzeTrafficLightColor (some [⟨150, 120, 50, 255⟩, ⟨150, 120, 50, 0⟩]) = "Red" := by
  refine ⟨by decide, by decide, uniform_amber_red _ (by decide) (by decide)⟩

/-- C4: for every region, `classify` equals the spec's ordered tier-table
evaluation — buckets are consulted from brightest to dimmest, the first
non-empty bucket whose means match one of that bucket's rules decides the
label, a non-empty bucket matching no rule is skipped in favour of the next
dimmer one, and once some bucket matches neither the dimmer buckets nor the
whole-region fallback matter. -/
theorem classify_follows_tier_table (l : List Rgba) :
    analyzeTrafficLightColor (some l) = specClassify (l.map Rgba.rgb) :=
  classifyPixels_eq_spec (l.map Rgba.rgb)

/-- C5: within each brightness bucket the rules are evaluated Green, then
Red, then Yellow, first match wins: green needs no other rule to fail, red
fires only when green failed, yellow only when green and red failed — in each
of the three buckets — and in particular a bright bucket whose means satisfy
the green rule (even together with the yellow rule) makes the whole
classification Green. -/
theorem bucket_rule_order (pix : List Pixel) :
    (0 < brightPixels pix →
      avgGreen pix > avgRed pix + 8 ∧ avgGreen pix > avgBlue pix + 8 →
      brightCheck pix = some "Green") ∧
    (0 < brightPixels pix →
      ¬(avgGreen pix > avgRed pix + 8 ∧ avgGreen pix > avgBlue pix + 8) →
      avgRed pix > avgGreen pix + 20 ∧ avgRed pix > avgBlue pix + 20 →
      brightCheck pix = some "Red") ∧
    (0 < brightPixels pix →
      ¬(avgGreen pix > avgRed pix + 8 ∧ avgGreen pix > avgBlue pix + 8) →
      ¬(avgRed pix > avgGreen pix + 20 ∧ avgRed pix > avgBlue pix + 20) →
      avgRed pix > 130 ∧ avgGreen pix > 100 ∧ avgBlue pix < 100 →
      brightCheck pix = some "Yellow") ∧
    (0 < dimPixels pix →
      dimAvgGreen pix > dimAvgRed pix + 3 ∧ dimAvgGreen pix > dimAvgBlue pix + 3 →
      dimCheck pix = some "Green") ∧
    (0 < dimPixels pix →
      ¬(dimAvgGreen pix > dimAvgRed pix + 3 ∧ dimAvgGreen pix > dimAvgBlue pix + 3) →
      dimAvgRed pix > dimAvgGreen pix + 8 ∧ dimAvgRed pix > dimAvgBlue pix + 8 →
      dimCheck pix = some "Red") ∧
    (0 < dimPixels pix →
      ¬(dimAvgGreen pix > dimAvgRed pix + 3 ∧ dimAvgGreen pix > dimAvgBlue pix + 3) →
      ¬(dimAvgRed pix > dimAvgGreen pix + 8 ∧ dimAvgRed pix > dimAvgBlue pix + 8) →
      dimAvgRed pix > 60 ∧ dimAvgGreen pix > 45 ∧ dimAvgBlue pix < 60 →
      dimCheck pix = some "Yellow") ∧
    (0 < veryDimPixels pix →
      veryDimAvgGreen pix > veryDimAvgRed pix + 1 ∧ veryDimAvgGreen pix > veryDimAvgBlue pix + 1 ∧
        veryDimAvgGreen pix > 15 →
      veryDimCheck pix = some "Green") ∧
    (0 < veryDimPixels pix →
      ¬(veryDimAvgGreen pix > veryDimAvgRed pix + 1 ∧ veryDimAvgGreen pix > veryDimAvgBlue pix + 1 ∧
        veryDimAvgGreen pix > 15) →
      veryDimAvgRed pix > veryDimAvgGreen pix + 3 ∧ veryDimAvgRed pix > veryDimAvgBlue pix + 3 →
      veryDimCheck pix = some "Red") ∧
    (0 < veryDimPixels pix →
      ¬(veryDimAvgGreen pix > veryDimAvgRed pix + 1 ∧ veryDimAvgGreen pix > veryDimAvgBlue pix + 1 ∧
        veryDimAvgGreen pix > 15) →
      ¬(veryDimAvgRed pix > veryDimAvgGreen pix + 3 ∧ veryDimAvgRed pix > veryDimAvgBlue pix + 3) →
      veryDimAvgRed pix > 30 ∧ veryDimAvgGreen pix > 25 ∧ veryDimAvgBlue pix < 40 →
      veryDimCheck pix = some "Yellow") ∧
    (0 < brightPixels pix →
      avgGreen pix > avgRed pix + 8 ∧ avgGreen pix > avgBlue pix + 8 →
      classifyPixels pix = "Green") := by
  refine ⟨?_, ?_, ?_, ?_, ?_, ?_, ?_, ?_, ?_, ?_⟩
  · intro h1 h2
    unfold brightCheck
    rw [if_pos h1, if_pos h2]
  · intro h1 h2 h3
    unfold brightCheck
    rw [if_pos h1, if_neg h2, if_pos h3]
  · intro h1 h2 h3 h4
    unfold brightCheck
    rw [if_pos h1, if_neg h2, if_neg h3, if_pos h4]
  · intro h1 h2
    unfold dimCheck
    rw [if_pos h1, if_pos h2]
  · intro h1 h2 h3
    unfold dimCheck
    rw [if_pos h1, if_neg h2, if_pos h3]
  · intro h1 h2 h3 h4
    unfold dimCheck
    rw [if_pos h1, if_neg h2, if_neg h3, if_pos h4]
  · intro h1 h2
    unfold veryDimCheck
    rw [if_pos h1, if_pos h2]
  · intro h1 h2 h3
    unfold veryDimCheck
    rw [if_pos h1, if_neg h2, if_pos h3]
  · intro h1 h2 h3 h4
    unfold veryDimCheck
    rw [if_pos h1, if_neg h2, if_neg h3, if_pos h4]
  · intro h1 h2
    have hb : brightCheck pix = some "Green" := by
      unfold brightCheck
      rw [if_pos h1, if_pos h2]
    unfold classifyPixels
    rw [hb]

/-- C5 (witness): the theorem's last conjunct applied to the one-pixel region
(150,200,50), whose bright-bucket means satisfy both the green and the yellow
rule; the classification is Green. -/
theorem bucket_rule_order_witness :
    0 < brightPixels [((150 : ℕ), (200 : ℕ), (50 : ℕ))] ∧
    (avgGreen [((150 : ℕ), (200 : ℕ), (50 : ℕ))] > avgRed [((150 : ℕ), (200 : ℕ), (50 : ℕ))] + 8 ∧
      avgGreen [((150 : ℕ), (200 : ℕ), (50 : ℕ))] >
        avgBlue [((150 : ℕ), (200 : ℕ), (50 : ℕ))] + 8) ∧
    (avgRed [((150 : ℕ), (200 : ℕ), (50 : ℕ))] > 130 ∧
      avgGreen [((150 : ℕ), (200 : ℕ), (50 : ℕ))] > 100 ∧
      avgBlue [((150 : ℕ), (200 : ℕ), (50 : ℕ))] < 100) ∧
    classifyPixels [((150 : ℕ), (200 : ℕ), (50 : ℕ))] = "Green" := by
  have h1 : 0 < brightPixels [((150 : ℕ), (200 : ℕ), (50 : ℕ))] := by
    norm_num [brightPixels, brightBucket, brightness, List.filter]
  have havR : avgRed [((150 : ℕ), (200 : ℕ), (50 : ℕ))] = 150 := by
    norm_num [avgRed, brightPixels, brightBucket, brightness, sumR, List.filter]
  have havG : avgGreen [((150 : ℕ), (200 : ℕ), (50 : ℕ))] = 200 := by
    norm_num [avgGreen, brightPixels, brightBucket, brightness, sumG, List.filter]
  have havB : avgBlue [((150 : ℕ), (200 : ℕ), (50 : ℕ))] = 50 := by
    norm_num [avgBlue, brightPixels, brightBucket, brightness, sumB, List.filter]
  refine ⟨h1, ?_, ?_, ?_⟩
  · rw [havR, havG, havB]
    norm_num
  · rw [havR, havG, havB]
    norm_num
  · exact (bucket_rule_order _).2.2.2.2.2.2.2.2.2 h1 (by rw [havR, havG, havB]; norm_num)

/-- C6: for imageHeight > 0 `estimate` equals the spec pipeline — base
height/confidence/reference class chosen by first-matching positionRatio
range (>0.7 → 4.5/0.8/NearIntersection; >0.4 → 5.2/0.7/MajorRoad; otherwise
6.1/0.6/Overpass), then the sizeRatio adjustment and rounding — and in
particular the box (480,100,520,140) in a 1000×1000 image (positionRatio
0.12, sizeRatio 0.04) gets height 6.1, confidence 0.6, Overpass. -/
theorem estimate_base_by_position (x1 y1 x2 y2 w h : ℚ) (hh : 0 < h) :
    estimatePoleHeight x1 y1 x2 y2 w h =
      adjustForSize (baseEstimate (((y1 + y2) / 2) / h)) (|y2 - y1| / h) ∧
    estimatePoleHeight 480 100 520 140 1000 1000 =
      { estimatedHeight := 6.1, confidence := 0.6, referenceUsed := "Highway overpass" } := by
  constructor
  · have hz : h ≠ 0 := ne_of_gt hh
    simp only [estimatePoleHeight, adjustForSize, baseEstimate, jsDiv, hz, if_false,
      JsNum.gtc, JsNum.ltc, decide_eq_true_eq, if_neg]
    split_ifs <;> rfl
  · norm_num [estimatePoleHeight, jsDiv, JsNum.gtc, JsNum.ltc, jsRound]

/-- C6 (witness): the theorem applied at the end-to-end scenario input. -/
theorem estimate_base_by_position_witness :
    0 < (1000 : ℚ) ∧
      estimatePoleHeight 480 100 520 140 1000 1000 =
        { estimatedHeight := 6.1, confidence := 0.6, referenceUsed := "Highway overpass" } :=
  ⟨by norm_num, (estimate_base_by_position 480 100 520 140 1000 1000 (by norm_num)).2⟩

/-- C7: for every box and imageHeight > 0 the confidence returned by
`estimate` lies in [0.5, 0.9], whichever size-ratio branch is taken. -/
theorem estimate_confidence_bounds (x1 y1 x2 y2 w h : ℚ) (hh : 0 < h) :
    0.5 ≤ (estimatePoleHeight x1 y1 x2 y2 w h).confidence ∧
      (estimatePoleHeight x1 y1 x2 y2 w h).confidence ≤ 0.9 := by
  simp only [estimatePoleHeight]
  split_ifs <;>
    constructor <;>
    simp [min_def, max_def] <;>
    norm_num

/-- C7 (witness): the bounds at the concrete box (480,100,520,140) in a
1000×1000 image. -/
theorem estimate_confidence_bounds_witness :
    0 < (1000 : ℚ) ∧
      0.5 ≤ (estimatePoleHeight 480 100 520 140 1000 1000).confidence ∧
      (estimatePoleHeight 480 100 520 140 1000 1000).confidence ≤ 0.9 :=
  ⟨by norm_num, estimate_confidence_bounds 480 100 520 140 1000 1000 (by norm_num)⟩

/-- C8: `classify` cannot fail on degenerate input — it is a total function,
and on the degenerate inputs (an absent buffer, or the zero-area/empty region,
where every brightness bucket is empty and the whole-region pixel count is
zero) it returns the label Unknown. -/
theorem classify_degenerate_unknown :
    analyzeTrafficLightColor none = "Unknown" ∧
      analyzeTrafficLightColor (some []) = "Unknown" := by
  constructor
  · rfl
  · norm_num [analyzeTrafficLightColor, classifyPixels, brightCheck, dimCheck, veryDimCheck,
      overallCheck, brightBucket, dimBucket, veryDimBucket, brightPixels, dimPixels,
      veryDimPixels, avgOverallRed, avgOverallGreen, avgOverallBlue, sumR, sumG, sumB,
      totalPixels, brightness, Rgba.rgb, List.filter]

/-- C9: `estimate` never reads the horizontal coordinates — two boxes with the
same ymin/ymax but arbitrary xmin/xmax, in the same image, get identical
height, confidence and reference class.  (In the embedding, as in the source,
x1 and x2 are simply never used, so both sides are definitionally equal.) -/
theorem estimate_ignores_horizontal (x1 x2 u1 u2 y1 y2 w h : ℚ) :
    estimatePoleHeight x1 y1 x2 y2 w h = estimatePoleHeight u1 y1 u2 y2 w h := rfl

/-- C10: `classify` depends only on the multiset of per-pixel RGB values —
the alpha bytes are never read and any permutation of the pixels (row-major
reordering included) yields the same label. -/
theorem classify_perm_invariant (l1 l2 : List Rgba)
    (h : (l1.map Rgba.rgb).Perm (l2.map Rgba.rgb)) :
    analyzeTrafficLightColor (some l1) = analyzeTrafficLightColor (some l2) :=
  classifyPixels_perm h

/-- C10 (witness): two two-pixel regions with the same RGB multiset in
opposite order and completely different alpha bytes classify identically. -/
theorem classify_perm_invariant_witness :
    (([⟨200, 50, 50, 255⟩, ⟨0, 255, 0, 0⟩] : List Rgba).map Rgba.rgb).Perm
      (([⟨0, 255, 0, 7⟩, ⟨200, 50, 50, 9⟩] : List Rgba).map Rgba.rgb) ∧
    analyzeTrafficLightColor (some [⟨200, 50, 50, 255⟩, ⟨0, 255, 0, 0⟩]) =
      analyzeTrafficLightColor (some [⟨0, 255, 0, 7⟩, ⟨200, 50, 50, 9⟩]) :=
  ⟨by decide, classify_perm_invariant _ _ (by decide)⟩

end TrafficLight
